import Mathlib

/-!
Shallow embedding of the deal-evaluation core of the google-flights-deal-bot
repository (src/scrapers/flights_scraper.py), together with theorems settling
the specification claims about it.

Modelling conventions:
* Python floats are modelled as exact rationals; Python's two-decimal
  round-half-to-even is modelled by pyRound / round2 below.
* The wall-clock inputs of the code (datetime.now().month and the formatted
  date string) are explicit parameters (current_month, today).
* The persisted price_database.json file and the in-memory price_database
  dictionary are collapsed into one Option PriceData argument per route key:
  none models a key absent from both (all three init branches of
  _check_if_good_deal build the same record), some pd models a stored profile.
* The FareFetcher (Selenium page fetch and DOM extraction) is opaque per the
  spec; it is modelled as a FetchOutcome value (success with extracted flight
  records, or a raised exception).
-/

/-- Price trend of a route profile, the "price_trend" field of the Python
dictionary: one of "increasing", "decreasing", "stable". -/
inductive Trend where
  | increasing
  | decreasing
  | stable
deriving DecidableEq

/-- One route profile, mirroring the per-key dictionary built in
_check_if_good_deal (flights_scraper.py lines 362-373).  seasonal_factors is
the month-keyed dictionary, kept as an insertion-ordered association list the
way a Python dict iterates. -/
structure PriceData where
  min_price : ℚ
  max_price : ℚ
  avg_price : ℚ
  count : ℕ
  last_updated : String
  prices : List ℚ
  seasonal_factors : List (ℕ × List ℚ)
  last_month_avg : ℚ
  last_week_avg : ℚ
  price_trend : Trend
deriving DecidableEq

/-- Python slice l[-n:] for n > 0: the last min(n, length) elements. -/
def lastN (n : ℕ) (l : List α) : List α := l.drop (l.length - n)

/-- Python's round to integer: round half to even (banker's rounding). -/
def pyRound (x : ℚ) : ℤ :=
  let f := ⌊x⌋
  let r := x - (f : ℚ)
  if r < 1/2 then f
  else if r > 1/2 then f + 1
  else if f % 2 = 0 then f else f + 1

/-- Python's round(x, 2): round to two decimal places, half to even. -/
def round2 (x : ℚ) : ℚ := ((pyRound (x * 100) : ℤ) : ℚ) / 100

/-- Fresh profile for a route key that is not yet tracked, mirroring
flights_scraper.py lines 362-373 (and the identical branches at lines
376-387 and 391-402): seeded from the first observed price with
avg_price = price * 1.3 and max_price = price * 1.5. -/
def initPriceData (current_price : ℚ) (today : String) : PriceData where
  min_price := current_price
  max_price := current_price * 1.5
  avg_price := current_price * 1.3
  count := 1
  last_updated := today
  prices := [current_price]
  seasonal_factors := []
  last_month_avg := current_price
  last_week_avg := current_price
  price_trend := Trend.stable

/-- Lines 411-414: append the current price, then keep only the last 100
entries when the list has grown beyond 100. -/
def updatedPrices (prices : List ℚ) (current_price : ℚ) : List ℚ :=
  let l := prices ++ [current_price]
  if l.length > 100 then lastN 100 l else l

/-- Lines 426-434: recompute the trend from the last three recorded prices
(strictly increasing, strictly decreasing, otherwise stable); with fewer than
three prices the previous trend is kept. -/
def updatedTrend (old : Trend) (prices : List ℚ) : Trend :=
  if prices.length ≥ 3 then
    match lastN 3 prices with
    | [a, b, c] =>
      if a < b ∧ b < c then Trend.increasing
      else if a > b ∧ b > c then Trend.decreasing
      else Trend.stable
    | _ => old
  else old

/-- Lines 436-445: append the current price to the current month's seasonal
bucket (creating the bucket if absent), then truncate every bucket to its
last three samples. -/
def addSeasonal (sf : List (ℕ × List ℚ)) (current_month : ℕ) (current_price : ℚ) :
    List (ℕ × List ℚ) :=
  let sf1 := if (sf.find? (fun q => q.1 == current_month)).isSome
             then sf else sf ++ [(current_month, [])]
  let sf2 := sf1.map (fun q => if q.1 == current_month then (q.1, q.2 ++ [current_price]) else q)
  sf2.map (fun q => if q.2.length > 3 then (q.1, lastN 3 q.2) else q)

/-- Lines 404-455 of _check_if_good_deal: the full statistics update applied
to a profile on one price observation (running extrema, bounded price
history, EMA with alpha = 0.1, 30-day and 7-day means, trend, seasonal
buckets, observation count and date stamp). -/
def updateProfile (pd : PriceData) (current_month : ℕ) (today : String)
    (current_price : ℚ) : PriceData :=
  let prices := updatedPrices pd.prices current_price
  let alpha : ℚ := 1/10
  { min_price := min pd.min_price current_price
    max_price := max pd.max_price current_price
    avg_price := alpha * current_price + (1 - alpha) * pd.avg_price
    count := pd.count + 1
    last_updated := today
    prices := prices
    seasonal_factors := addSeasonal pd.seasonal_factors current_month current_price
    last_month_avg := if prices.length ≥ 30 then (lastN 30 prices).sum / 30 else pd.last_month_avg
    last_week_avg := if prices.length ≥ 7 then (lastN 7 prices).sum / 7 else pd.last_week_avg
    price_trend := updatedTrend pd.price_trend prices }

/-- Lines 447-451: seasonal baseline for the current month — the mean of the
month's samples when the bucket exists and is non-empty, otherwise the
(already updated) avg_price. -/
def seasonalBaseline (pd : PriceData) (current_month : ℕ) : ℚ :=
  match pd.seasonal_factors.find? (fun q => q.1 == current_month) with
  | some q => if q.2 ≠ [] then q.2.sum / (q.2.length : ℚ) else pd.avg_price
  | none => pd.avg_price

/-- Lines 469-478: deal threshold adapted to the price trend — base 35,
minus 5 when increasing, plus 5 when decreasing. -/
def thresholdFor (t : Trend) : ℚ :=
  let base_threshold : ℚ := 35
  match t with
  | Trend.increasing => base_threshold - 5
  | Trend.decreasing => base_threshold + 5
  | Trend.stable => base_threshold

/-- Result of one evaluation: the updated profile and the returned pair
(is_good_deal, discount_percentage). -/
structure DealResult where
  profile : PriceData
  is_good_deal : Bool
  discount_pct : ℚ
deriving DecidableEq

/-- _check_if_good_deal (lines 340-483): initialise the profile when the key
is untracked, apply the statistics update, compute the four rounded discount
candidates against avg_price, last_month_avg, last_week_avg and the seasonal
baseline, take their maximum, and compare it to the trend-adapted
threshold. -/
def checkIfGoodDeal (db : Option PriceData) (current_month : ℕ) (today : String)
    (current_price : ℚ) : DealResult :=
  let pd := db.getD (initPriceData current_price today)
  let pd1 := updateProfile pd current_month today current_price
  let seasonal_avg := seasonalBaseline pd1 current_month
  let avg_discount := round2 (((pd1.avg_price - current_price) / pd1.avg_price) * 100)
  let month_discount := round2 (((pd1.last_month_avg - current_price) / pd1.last_month_avg) * 100)
  let week_discount := round2 (((pd1.last_week_avg - current_price) / pd1.last_week_avg) * 100)
  let seasonal_discount := round2 (((seasonal_avg - current_price) / seasonal_avg) * 100)
  let discount_pct := max (max (max avg_discount month_discount) week_discount) seasonal_discount
  let threshold := thresholdFor pd1.price_trend
  { profile := pd1
    is_good_deal := decide (discount_pct ≥ threshold)
    discount_pct := discount_pct }

/-- One Upsert step on an already-tracked key. -/
def upsertStep (current_month : ℕ) (today : String) (pd : PriceData) (p : ℚ) : PriceData :=
  (checkIfGoodDeal (some pd) current_month today p).profile

/-- Profile obtained by submitting first, then each price of rest, to a route
key that starts untracked. -/
def runFresh (current_month : ℕ) (today : String) (first : ℚ) (rest : List ℚ) : PriceData :=
  rest.foldl (upsertStep current_month today) (checkIfGoodDeal none current_month today first).profile

/-- The fields of a scraped flight record that find_best_deals reads.
price_per_hour is None when duration is 0 (line 297), hence an Option. -/
structure Flight where
  price : ℚ
  duration_hours : ℚ
  price_per_hour : Option ℚ
  discount_percentage : ℚ
deriving DecidableEq

/-- Stable insertion of x after every element y with le y x. -/
def sortedInsert (le : α → α → Bool) (x : α) : List α → List α
  | [] => [x]
  | y :: ys => if le y x then y :: sortedInsert le x ys else x :: y :: ys

/-- Comparison sort used to model pandas sort_values.  pandas' default
quicksort is unstable, so only the multiset of rows (here: length and
membership) is meaningful; the theorems below use nothing else. -/
def sortBy (le : α → α → Bool) (l : List α) : List α :=
  l.foldl (fun acc x => sortedInsert le x acc) []

/-- Ascending order on a nullable column, NaN placed last
(pandas na_position default). -/
def optionLe (x y : Option ℚ) : Bool :=
  match x, y with
  | some a, some b => a ≤ b
  | some _, none => true
  | none, some _ => false
  | none, none => true

/-- pandas DataFrame.head(n): the first n rows for n ≥ 0, and all rows but
the last |n| for n < 0 (iloc[:n] slice semantics). -/
def pdHead (n : ℤ) (l : List α) : List α :=
  if 0 ≤ n then l.take n.toNat else l.take (l.length - n.natAbs)

/-- Lines 513-521: attach the value_score column.  When every
price_per_hour is null the column is not created (none for every row);
when min = max each row gets the scalar 50; otherwise rows with a null
price_per_hour get a null score. -/
def withValueScores (flights : List Flight) : List (Flight × Option ℚ) :=
  match flights.filterMap (fun f => f.price_per_hour) with
  | [] => flights.map (fun f => (f, none))
  | q :: qs =>
    let min_pph := qs.foldl min q
    let max_pph := qs.foldl max q
    if min_pph ≠ max_pph then
      flights.map (fun f =>
        (f, f.price_per_hour.map (fun v => 100 * (v - min_pph) / (max_pph - min_pph))))
    else
      flights.map (fun f => (f, some 50))

/-- Lines 531-541 of find_best_deals: the sort on the requested column
(value_score only sorts when that column exists; an unrecognised key leaves
the order unchanged; duration and discount sort descending). -/
def sortRows (sort_by : String) (has_value_score : Bool)
    (rows : List (Flight × Option ℚ)) : List (Flight × Option ℚ) :=
  if sort_by = "value_score" ∧ has_value_score = true then
    sortBy (fun r s => optionLe r.2 s.2) rows
  else if sort_by = "price_per_hour" then
    sortBy (fun r s => optionLe r.1.price_per_hour s.1.price_per_hour) rows
  else if sort_by = "price" then
    sortBy (fun r s => r.1.price ≤ s.1.price) rows
  else if sort_by = "duration_hours" then
    sortBy (fun r s => s.1.duration_hours ≤ r.1.duration_hours) rows
  else if sort_by = "discount_percentage" then
    sortBy (fun r s => s.1.discount_percentage ≤ r.1.discount_percentage) rows
  else rows

/-- Lines 506-541 of find_best_deals: empty-input guard, value_score
computation, discount filter, empty-result guard, and the sort. -/
def rankPipeline (flights : List Flight) (sort_by : String) (discount_threshold : ℚ) :
    List (Flight × Option ℚ) :=
  if flights = [] then [] else
  let scored := withValueScores flights
  let has_value_score := !(flights.filterMap (fun f => f.price_per_hour)).isEmpty
  let filtered := if discount_threshold > 0
                  then scored.filter (fun r => r.1.discount_percentage ≥ discount_threshold)
                  else scored
  if filtered = [] then [] else
  sortRows sort_by has_value_score filtered

/-- find_best_deals (lines 493-544): rank, then truncate with
DataFrame.head(limit).  The returned records are the flights themselves
(the added value_score column is dropped here; no claim mentions it). -/
def findBestDeals (flights : List Flight) (sort_by : String) (limit : ℤ)
    (discount_threshold : ℚ) : List Flight :=
  (pdHead limit (rankPipeline flights sort_by discount_threshold)).map (fun r => r.1)

/-- Outcome of one opaque FareFetcher call: extracted flight records, or a
raised exception with its message. -/
inductive FetchOutcome where
  | ok (flights : List Flight)
  | err (msg : String)
deriving DecidableEq

/-- Outcome of search_flights as seen by its caller. -/
inductive SearchResult where
  | results (flights : List Flight)
  | exited (code : ℕ)
deriving DecidableEq

/-- search_flights (lines 119-216): on success the extracted records are
returned; on any exception the handler at lines 208-215 saves a screenshot,
logs, and calls sys.exit(1) — the `return []` on line 216 sits after
sys.exit(1) and is unreachable. -/
def searchFlights (fetch : FetchOutcome) : SearchResult :=
  match fetch with
  | FetchOutcome.ok fl => SearchResult.results fl
  | FetchOutcome.err _ => SearchResult.exited 1

/-- Outcome of one worker of get_multiple_date_options. -/
inductive WorkerOutcome where
  | completed (departure_date : String) (flights : List Flight)
  | systemExit (code : ℕ)
deriving DecidableEq

/-- search_single_date (lines 703-711): calls search_flights once — there is
no retry here, retry_with_backoff has no caller in the repository.  Its
`except Exception` catches ordinary exceptions and records (date, []), but
the SystemExit raised by sys.exit(1) inside search_flights is a
BaseException, not an Exception, so it passes through. -/
def searchSingleDate (departure_date : String) (fetch : FetchOutcome) : WorkerOutcome :=
  match searchFlights fetch with
  | SearchResult.results fl => WorkerOutcome.completed departure_date fl
  | SearchResult.exited c => WorkerOutcome.systemExit c

/-- Outcome of a whole job. -/
inductive JobOutcome where
  | done (results : List (String × List Flight))
  | aborted (code : ℕ)
deriving DecidableEq

/-- Collection loop of get_multiple_date_options (lines 722-728): each
future's result is recorded under its date; the `except Exception` at line
727 does not catch the SystemExit re-raised by future.result(), so the loop
aborts there.  Futures complete in nondeterministic order; the model
processes them in submission order, which settles the claims at issue since
they quantify over a job containing a failing query. -/
def collectResults : List (String × FetchOutcome) → List (String × List Flight) → JobOutcome
  | [], acc => JobOutcome.done acc
  | (d, f) :: rest, acc =>
    match searchSingleDate d f with
    | WorkerOutcome.completed d1 fl => collectResults rest (acc ++ [(d1, fl)])
    | WorkerOutcome.systemExit c => JobOutcome.aborted c

/-- get_multiple_date_options (lines 673-730) for a given query plan: fan
out, collect every result. -/
def getMultipleDateOptions (queries : List (String × FetchOutcome)) : JobOutcome :=
  collectResults queries []

/-- Loop body of retry_with_backoff (lines 744-758), with fuel
max_retries - retries.  The returned triple is (result, attempts made,
sleeps performed).  func takes the 0-based attempt index. -/
def retryLoop (func : ℕ → FetchOutcome) (max_retries : ℕ) :
    ℕ → ℕ → ℕ → List ℕ → Option (List Flight) × ℕ × List ℕ
  | 0, attempt, _, sleeps => (none, attempt, sleeps)
  | fuel + 1, attempt, delay, sleeps =>
    match func attempt with
    | FetchOutcome.ok fl => (some fl, attempt + 1, sleeps)
    | FetchOutcome.err _ =>
      if attempt + 1 ≥ max_retries then (none, attempt + 1, sleeps)
      else retryLoop func max_retries fuel (attempt + 1) (delay * 2) (sleeps ++ [delay])

/-- retry_with_backoff (lines 732-758): defaults max_retries = 3,
initial_delay = 2; the delay doubles after each failed attempt that is
followed by another one; None after exhaustion. -/
def retryWithBackoff (func : ℕ → FetchOutcome) (max_retries : ℕ) (initial_delay : ℕ) :
    Option (List Flight) × ℕ × List ℕ :=
  retryLoop func max_retries max_retries 0 initial_delay []

theorem length_lastN (n : ℕ) (l : List α) : (lastN n l).length = min n l.length := by
  simp [lastN]; omega

theorem lastN_of_le {n : ℕ} {l : List α} (h : l.length ≤ n) : lastN n l = l := by
  simp [lastN, Nat.sub_eq_zero_of_le h]

theorem lastN_cons_of_le {n : ℕ} (a : α) {l : List α} (h : n ≤ l.length) :
    lastN n (a :: l) = lastN n l := by
  simp only [lastN, List.length_cons]
  have h2 : l.length + 1 - n = (l.length - n) + 1 := by omega
  rw [h2, List.drop_succ_cons]

theorem lastN_lastN_append (n : ℕ) (a b : List α) :
    lastN n (lastN n a ++ b) = lastN n (a ++ b) := by
  simp only [lastN, List.length_append, List.length_drop,
    List.drop_append_eq_append_drop, List.drop_drop]
  congr 1
  · congr 1
    omega
  · congr 1
    omega

theorem updatedPrices_eq_lastN (l : List ℚ) (p : ℚ) :
    updatedPrices l p = lastN 100 (l ++ [p]) := by
  show (if (l ++ [p]).length > 100 then lastN 100 (l ++ [p]) else l ++ [p]) = _
  by_cases h : (l ++ [p]).length > 100
  · rw [if_pos h]
  · rw [if_neg h]
    exact (lastN_of_le (by omega)).symm

theorem length_updatedPrices_le (l : List ℚ) (p : ℚ) :
    (updatedPrices l p).length ≤ 100 := by
  rw [updatedPrices_eq_lastN, length_lastN]
  omega

theorem upsertStep_eq (m : ℕ) (t : String) (pd : PriceData) (p : ℚ) :
    upsertStep m t pd p = updateProfile pd m t p := rfl

theorem updateProfile_min_price (pd : PriceData) (m : ℕ) (t : String) (p : ℚ) :
    (updateProfile pd m t p).min_price = min pd.min_price p := rfl

theorem updateProfile_max_price (pd : PriceData) (m : ℕ) (t : String) (p : ℚ) :
    (updateProfile pd m t p).max_price = max pd.max_price p := rfl

theorem updateProfile_prices (pd : PriceData) (m : ℕ) (t : String) (p : ℚ) :
    (updateProfile pd m t p).prices = updatedPrices pd.prices p := rfl

theorem updateProfile_price_trend (pd : PriceData) (m : ℕ) (t : String) (p : ℚ) :
    (updateProfile pd m t p).price_trend
      = updatedTrend pd.price_trend (updatedPrices pd.prices p) := rfl

theorem checkIfGoodDeal_profile (db : Option PriceData) (m : ℕ) (t : String) (p : ℚ) :
    (checkIfGoodDeal db m t p).profile
      = updateProfile (db.getD (initPriceData p t)) m t p := rfl

theorem foldl_upsert_prices (m : ℕ) (t : String) :
    ∀ (ps : List ℚ) (pd : PriceData), pd.prices.length ≤ 100 →
      (ps.foldl (upsertStep m t) pd).prices = lastN 100 (pd.prices ++ ps) := by
  intro ps
  induction ps with
  | nil => intro pd h; simp [lastN_of_le h]
  | cons p ps ih =>
    intro pd h
    rw [List.foldl_cons]
    have hstep : (upsertStep m t pd p).prices = updatedPrices pd.prices p := rfl
    have hlen : (upsertStep m t pd p).prices.length ≤ 100 := by
      rw [hstep]; exact length_updatedPrices_le _ _
    rw [ih _ hlen, hstep, updatedPrices_eq_lastN, lastN_lastN_append]
    simp

theorem foldl_upsert_minmax_mono (m : ℕ) (t : String) :
    ∀ (ps : List ℚ) (pd : PriceData),
      (ps.foldl (upsertStep m t) pd).min_price ≤ pd.min_price ∧
      pd.max_price ≤ (ps.foldl (upsertStep m t) pd).max_price := by
  intro ps
  induction ps with
  | nil => intro pd; exact ⟨le_refl _, le_refl _⟩
  | cons p ps ih =>
    intro pd
    rw [List.foldl_cons]
    refine ⟨le_trans (ih _).1 ?_, le_trans ?_ (ih _).2⟩
    · exact min_le_left _ _
    · exact le_max_left _ _

theorem foldl_upsert_bracket (m : ℕ) (t : String) :
    ∀ (ps : List ℚ) (pd : PriceData) (q : ℚ), q ∈ ps →
      (ps.foldl (upsertStep m t) pd).min_price ≤ q ∧
      q ≤ (ps.foldl (upsertStep m t) pd).max_price := by
  intro ps
  induction ps with
  | nil => intro pd q hq; cases hq
  | cons p ps ih =>
    intro pd q hq
    rw [List.foldl_cons]
    rcases List.mem_cons.mp hq with h | h
    · subst h
      constructor
      · exact le_trans (foldl_upsert_minmax_mono m t ps _).1 (min_le_right _ _)
      · exact le_trans (le_max_right _ _) (foldl_upsert_minmax_mono m t ps _).2
    · exact ih _ q h

/-- C2: for every sequence of Upserts (price submissions via
_check_if_good_deal) to the same route key, after each call every price
submitted so far satisfies min_price ≤ price ≤ max_price in the stored
profile. -/
theorem c2_minmax_brackets_every_submitted_price (m : ℕ) (t : String)
    (first : ℚ) (rest : List ℚ) (q : ℚ) (hq : q ∈ first :: rest) :
    (runFresh m t first rest).min_price ≤ q ∧ q ≤ (runFresh m t first rest).max_price := by
  unfold runFresh
  rcases List.mem_cons.mp hq with h | h
  · subst h
    constructor
    · refine le_trans (foldl_upsert_minmax_mono m t rest _).1 ?_
      have h0 : (checkIfGoodDeal none m t q).profile.min_price = min q q := rfl
      rw [h0]
      simp
    · refine le_trans ?_ (foldl_upsert_minmax_mono m t rest _).2
      have h0 : (checkIfGoodDeal none m t q).profile.max_price = max (q * 1.5) q := rfl
      rw [h0]
      exact le_max_right _ _
  · exact foldl_upsert_bracket m t rest _ q h

/-- Witness for C2 at the concrete run 100 then 50: both submitted prices
stay inside the stored extrema. -/
theorem c2_minmax_brackets_witness :
    ((50 : ℚ) ∈ (100 : ℚ) :: [(50 : ℚ)]) ∧
    ((runFresh 1 ("2025-01-01") 100 [50]).min_price ≤ 50 ∧
     (50 : ℚ) ≤ (runFresh 1 ("2025-01-01") 100 [50]).max_price) :=
  ⟨by simp, c2_minmax_brackets_every_submitted_price 1 ("2025-01-01") 100 [50] 50 (by simp)⟩

/-- The 105 distinct increasing prices 1, 2, ..., 105 of the C3 experiment,
split as head and tail for runFresh. -/
def demoRest : List ℚ := (List.range 104).map (fun i => ((i + 2 : ℕ) : ℚ))

def demoPrices : List ℚ := (1 : ℚ) :: demoRest

/-- C3: the stored prices list never exceeds length 100 over any number of
Upserts, and eviction is FIFO: submitting the 105 distinct increasing prices
1..105 to a fresh key retains exactly the last 100 submitted prices in
order. -/
theorem c3_price_history_bounded_fifo :
    (∀ (m : ℕ) (t : String) (first : ℚ) (rest : List ℚ),
        (runFresh m t first rest).prices.length ≤ 100)
    ∧ demoPrices.length = 105
    ∧ List.Pairwise (· < ·) demoPrices
    ∧ (runFresh 1 ("2025-01-01") 1 demoRest).prices = lastN 100 demoPrices := by
  refine ⟨?_, ?_, ?_, ?_⟩
  · intro m t first rest
    unfold runFresh
    have hle : (checkIfGoodDeal none m t first).profile.prices.length ≤ 100 := by
      have h0 : (checkIfGoodDeal none m t first).profile.prices
          = updatedPrices [first] first := rfl
      rw [h0]
      exact length_updatedPrices_le _ _
    rw [foldl_upsert_prices m t rest _ hle, length_lastN]
    omega
  · simp [demoPrices, demoRest]
  · decide
  · unfold runFresh
    have hle : (checkIfGoodDeal none 1 ("2025-01-01") 1).profile.prices.length ≤ 100 := by
      have h0 : (checkIfGoodDeal none 1 ("2025-01-01") 1).profile.prices
          = updatedPrices [1] 1 := rfl
      rw [h0]
      exact length_updatedPrices_le _ _
    rw [foldl_upsert_prices 1 ("2025-01-01") demoRest _ hle]
    have h0 : (checkIfGoodDeal none 1 ("2025-01-01") 1).profile.prices
        = [(1 : ℚ), 1] := rfl
    rw [h0]
    have h1 : ([(1 : ℚ), 1] ++ demoRest) = (1 : ℚ) :: demoPrices := by simp [demoPrices]
    rw [h1]
    refine lastN_cons_of_le _ ?_
    simp [demoPrices, demoRest]

theorem updatedTrend_lastN (old : Trend) (l : List ℚ) (a b c : ℚ)
    (h : lastN 3 l = [a, b, c]) :
    updatedTrend old l =
      (if a < b ∧ b < c then Trend.increasing
       else if a > b ∧ b > c then Trend.decreasing
       else Trend.stable) := by
  have hlen : l.length ≥ 3 := by
    have h2 := length_lastN 3 l
    rw [h] at h2
    simp at h2
    omega
  unfold updatedTrend
  rw [if_pos hlen, h]

/-- C6: the stored trend is classified from the last three recorded prices —
strictly monotonic up gives increasing, strictly monotonic down gives
decreasing, anything else stable; and the three concrete fresh-key runs
[10, 20, 30], [30, 20, 10], [10, 30, 20] classify as increasing, decreasing
and stable respectively. -/
theorem c6_trend_classification :
    (∀ (db : Option PriceData) (m : ℕ) (t : String) (p : ℚ) (a b c : ℚ),
        lastN 3 ((checkIfGoodDeal db m t p).profile.prices) = [a, b, c] →
        (checkIfGoodDeal db m t p).profile.price_trend
          = (if a < b ∧ b < c then Trend.increasing
             else if a > b ∧ b > c then Trend.decreasing
             else Trend.stable))
    ∧ (runFresh 1 ("2025-01-01") 10 [20, 30]).price_trend = Trend.increasing
    ∧ (runFresh 1 ("2025-01-01") 30 [20, 10]).price_trend = Trend.decreasing
    ∧ (runFresh 1 ("2025-01-01") 10 [30, 20]).price_trend = Trend.stable := by
  refine ⟨?_, by decide, by decide, by decide⟩
  intro db m t p a b c h
  have hpr : (checkIfGoodDeal db m t p).profile.price_trend
      = updatedTrend (db.getD (initPriceData p t)).price_trend
          ((checkIfGoodDeal db m t p).profile.prices) := rfl
  rw [hpr]
  exact updatedTrend_lastN _ _ a b c h

/-- A stored profile with two recorded prices, used to exercise the trend
classification on a third observation. -/
def demoProfile : PriceData where
  min_price := 1
  max_price := 10
  avg_price := 5
  count := 3
  last_updated := "2025-01-01"
  prices := [1, 2]
  seasonal_factors := []
  last_month_avg := 5
  last_week_avg := 5
  price_trend := Trend.stable

/-- Witness for C6: after submitting 3 to a profile holding [1, 2], the last
three recorded prices are [1, 2, 3] and the trend classifies accordingly. -/
theorem c6_trend_classification_witness :
    lastN 3 ((checkIfGoodDeal (some demoProfile) 1 ("2025-01-02") 3).profile.prices) = [1, 2, 3]
    ∧ (checkIfGoodDeal (some demoProfile) 1 ("2025-01-02") 3).profile.price_trend
      = (if (1 : ℚ) < 2 ∧ (2 : ℚ) < 3 then Trend.increasing
         else if (1 : ℚ) > 2 ∧ (2 : ℚ) > 3 then Trend.decreasing
         else Trend.stable) :=
  ⟨by decide, c6_trend_classification.1 (some demoProfile) 1 ("2025-01-02") 3 1 2 3 (by decide)⟩

/-- C4: the returned discount_percentage is the maximum of the four
candidates round(100 × (baseline − price) / baseline, 2) with baselines
avg_price, last_month_avg, last_week_avg and the seasonal baseline of the
current month (which falls back to avg_price when no samples exist). -/
theorem c4_discount_is_max_of_four_baselines (db : Option PriceData) (m : ℕ)
    (t : String) (p : ℚ) :
    (checkIfGoodDeal db m t p).discount_pct =
      max (max (max
        (round2 (100 * ((checkIfGoodDeal db m t p).profile.avg_price - p)
          / (checkIfGoodDeal db m t p).profile.avg_price))
        (round2 (100 * ((checkIfGoodDeal db m t p).profile.last_month_avg - p)
          / (checkIfGoodDeal db m t p).profile.last_month_avg)))
        (round2 (100 * ((checkIfGoodDeal db m t p).profile.last_week_avg - p)
          / (checkIfGoodDeal db m t p).profile.last_week_avg)))
        (round2 (100 * (seasonalBaseline (checkIfGoodDeal db m t p).profile m - p)
          / seasonalBaseline (checkIfGoodDeal db m t p).profile m)) := by
  have harg : ∀ X : ℚ, ((X - p) / X) * 100 = 100 * (X - p) / X := by
    intro X
    ring
  simp only [checkIfGoodDeal, harg]

/-- C5: the deal threshold is 35 for a stable trend, 30 for increasing and
40 for decreasing, and is_good_deal holds exactly when the returned discount
reaches the threshold of the profile's trend; in particular a discount of 31
meets the increasing threshold and misses the decreasing one. -/
theorem c5_adaptive_threshold (db : Option PriceData) (m : ℕ) (t : String) (p : ℚ) :
    ((checkIfGoodDeal db m t p).is_good_deal = true ↔
      (checkIfGoodDeal db m t p).discount_pct
        ≥ thresholdFor (checkIfGoodDeal db m t p).profile.price_trend)
    ∧ thresholdFor Trend.stable = 35
    ∧ thresholdFor Trend.increasing = 30
    ∧ thresholdFor Trend.decreasing = 40
    ∧ (31 : ℚ) ≥ thresholdFor Trend.increasing
    ∧ ¬ (31 : ℚ) ≥ thresholdFor Trend.decreasing := by
  refine ⟨?_, by norm_num [thresholdFor], by norm_num [thresholdFor],
    by norm_num [thresholdFor], by norm_num [thresholdFor], by norm_num [thresholdFor]⟩
  simp only [checkIfGoodDeal, decide_eq_true_eq]

theorem checkIfGoodDeal_discount (db : Option PriceData) (m : ℕ) (t : String) (p : ℚ) :
    (checkIfGoodDeal db m t p).discount_pct =
      max (max (max
        (round2 (((checkIfGoodDeal db m t p).profile.avg_price - p)
          / (checkIfGoodDeal db m t p).profile.avg_price * 100))
        (round2 (((checkIfGoodDeal db m t p).profile.last_month_avg - p)
          / (checkIfGoodDeal db m t p).profile.last_month_avg * 100)))
        (round2 (((checkIfGoodDeal db m t p).profile.last_week_avg - p)
          / (checkIfGoodDeal db m t p).profile.last_week_avg * 100)))
        (round2 ((seasonalBaseline (checkIfGoodDeal db m t p).profile m - p)
          / seasonalBaseline (checkIfGoodDeal db m t p).profile m * 100)) := rfl

theorem checkIfGoodDeal_flag (db : Option PriceData) (m : ℕ) (t : String) (p : ℚ) :
    (checkIfGoodDeal db m t p).is_good_deal
      = decide ((checkIfGoodDeal db m t p).discount_pct
          ≥ thresholdFor (checkIfGoodDeal db m t p).profile.price_trend) := rfl

theorem first_upsert_avg (m : ℕ) (t : String) (p : ℚ) :
    (checkIfGoodDeal none m t p).profile.avg_price = (127/100) * p := by
  show (1/10 : ℚ) * p + (1 - 1/10) * (p * 1.3) = (127/100) * p
  rw [show (1.3 : ℚ) = 13/10 by norm_num]
  ring

theorem first_upsert_month_avg (m : ℕ) (t : String) (p : ℚ) :
    (checkIfGoodDeal none m t p).profile.last_month_avg = p := rfl

theorem first_upsert_week_avg (m : ℕ) (t : String) (p : ℚ) :
    (checkIfGoodDeal none m t p).profile.last_week_avg = p := rfl

theorem first_upsert_trend (m : ℕ) (t : String) (p : ℚ) :
    (checkIfGoodDeal none m t p).profile.price_trend = Trend.stable := rfl

theorem first_upsert_seasonal (m : ℕ) (t : String) (p : ℚ) :
    seasonalBaseline (checkIfGoodDeal none m t p).profile m = p := by
  have hsf : (checkIfGoodDeal none m t p).profile.seasonal_factors = [(m, [p])] := by
    show addSeasonal [] m p = [(m, [p])]
    simp [addSeasonal]
  simp [seasonalBaseline, hsf]

theorem first_upsert_discount (m : ℕ) (t : String) (p : ℚ) (hp : 0 < p) :
    (checkIfGoodDeal none m t p).discount_pct = 21.26 := by
  rw [checkIfGoodDeal_discount, first_upsert_avg, first_upsert_month_avg,
    first_upsert_week_avg, first_upsert_seasonal]
  have hp0 : p ≠ 0 := ne_of_gt hp
  have e1 : ((127/100 : ℚ) * p - p) / ((127/100) * p) * 100 = 2700/127 := by
    rw [show (127/100 : ℚ) * p - p = (27/100) * p by ring,
      mul_comm (27/100 : ℚ) p, mul_comm (127/100 : ℚ) p, mul_div_mul_left _ _ hp0]
    norm_num
  have e2 : (p - p) / p * 100 = 0 := by simp
  rw [e1]
  simp only [e2]
  have hr0 : round2 0 = 0 := by norm_num [round2, pyRound]
  have hr : round2 (2700/127) = 21.26 := by
    unfold round2 pyRound
    norm_num
  rw [hr0, hr]
  rw [max_eq_left (by norm_num), max_eq_left (by norm_num), max_eq_left (by norm_num)]

/-- C10: for every positive price p, the very first evaluation of an
untracked route key returns is_good_deal = false with discount_percentage
round(100 × 0.27/1.27, 2) = 21.26, below every adaptive threshold. -/
theorem c10_first_evaluation_never_deal (m : ℕ) (t : String) (p : ℚ) (hp : 0 < p) :
    (checkIfGoodDeal none m t p).is_good_deal = false
    ∧ (checkIfGoodDeal none m t p).discount_pct = 21.26
    ∧ round2 (100 * 0.27 / 1.27) = 21.26
    ∧ (21.26 : ℚ) < 30 := by
  refine ⟨?_, first_upsert_discount m t p hp, ?_, by norm_num⟩
  · rw [checkIfGoodDeal_flag, first_upsert_trend, first_upsert_discount m t p hp,
      decide_eq_false_iff_not]
    norm_num [thresholdFor]
  · have h : (100 * 0.27 / 1.27 : ℚ) = 2700/127 := by norm_num
    rw [h]
    unfold round2 pyRound
    norm_num

/-- Witness for C10 at price 100. -/
theorem c10_first_evaluation_never_deal_witness :
    (0 : ℚ) < 100
    ∧ ((checkIfGoodDeal none 1 ("2025-01-01") 100).is_good_deal = false
      ∧ (checkIfGoodDeal none 1 ("2025-01-01") 100).discount_pct = 21.26
      ∧ round2 (100 * 0.27 / 1.27) = 21.26
      ∧ (21.26 : ℚ) < 30) :=
  ⟨by norm_num, c10_first_evaluation_never_deal 1 ("2025-01-01") 100 (by norm_num)⟩

/-- Counterexample for C9: after the first Upsert of price 100 on an
untracked key the stored avg_price is 127, not 100 × 1.3 = 130 — the seeded
value is immediately reworked by the EMA step of the same call. -/
theorem c9_counterexample_avg_not_seed :
    (checkIfGoodDeal none 1 ("2025-01-01") 100).profile.avg_price = 127
    ∧ (100 : ℚ) * 1.3 = 130
    ∧ (127 : ℚ) ≠ 130 := by
  refine ⟨?_, by norm_num, by norm_num⟩
  rw [first_upsert_avg]
  norm_num

/-- C9 (amended): the profile is created seeded with avgPrice = p × 1.3,
maxPrice = p × 1.5 and minPrice = p, but the first Upsert then applies the
full update to that seed, so the resulting state has avg_price = 1.27 × p,
max_price = p × 1.5, min_price = p, prices = [p, p] and count = 2
(for p ≥ 0). -/
theorem c9_first_observation_seeding (m : ℕ) (t : String) (p : ℚ) (hp : 0 ≤ p) :
    (initPriceData p t).avg_price = p * 1.3
    ∧ (initPriceData p t).max_price = p * 1.5
    ∧ (initPriceData p t).min_price = p
    ∧ (checkIfGoodDeal none m t p).profile.min_price = p
    ∧ (checkIfGoodDeal none m t p).profile.max_price = p * 1.5
    ∧ (checkIfGoodDeal none m t p).profile.avg_price = 1.27 * p
    ∧ (checkIfGoodDeal none m t p).profile.prices = [p, p]
    ∧ (checkIfGoodDeal none m t p).profile.count = 2 := by
  refine ⟨rfl, rfl, rfl, ?_, ?_, ?_, rfl, rfl⟩
  · show min p p = p
    exact min_self p
  · show max (p * 1.5) p = p * 1.5
    refine max_eq_left ?_
    rw [show (1.5 : ℚ) = 3/2 by norm_num]
    linarith
  · rw [first_upsert_avg]
    norm_num

/-- Witness for C9 (amended) at price 100. -/
theorem c9_first_observation_seeding_witness :
    (0 : ℚ) ≤ 100
    ∧ ((initPriceData 100 ("2025-01-01")).avg_price = 100 * 1.3
      ∧ (initPriceData 100 ("2025-01-01")).max_price = 100 * 1.5
      ∧ (initPriceData 100 ("2025-01-01")).min_price = 100
      ∧ (checkIfGoodDeal none 1 ("2025-01-01") 100).profile.min_price = 100
      ∧ (checkIfGoodDeal none 1 ("2025-01-01") 100).profile.max_price = 100 * 1.5
      ∧ (checkIfGoodDeal none 1 ("2025-01-01") 100).profile.avg_price = 1.27 * 100
      ∧ (checkIfGoodDeal none 1 ("2025-01-01") 100).profile.prices = [100, 100]
      ∧ (checkIfGoodDeal none 1 ("2025-01-01") 100).profile.count = 2) :=
  ⟨by norm_num, c9_first_observation_seeding 1 ("2025-01-01") 100 (by norm_num)⟩

/-- A flight record whose discount passes the default threshold. -/
def demoFlightA : Flight where
  price := 500
  duration_hours := 10
  price_per_hour := some 50
  discount_percentage := 40

/-- A second, more expensive flight record passing the default threshold. -/
def demoFlightB : Flight where
  price := 600
  duration_hours := 10
  price_per_hour := some 60
  discount_percentage := 50

/-- A three-date job whose second fetch raises. -/
def demoQueries : List (String × FetchOutcome) :=
  [(("2025-01-01"), FetchOutcome.ok [demoFlightA]),
   (("2025-01-02"), FetchOutcome.err ("timeout")),
   (("2025-01-03"), FetchOutcome.ok [demoFlightB])]

/-- C1 (divergence evidence): a single failing fetch makes search_flights
call sys.exit(1), and the resulting SystemExit passes the except-Exception
handlers, so the three-date job aborts instead of recording zero results for
the failing date and completing. -/
theorem c1_single_fetch_failure_aborts_job :
    searchFlights (FetchOutcome.err ("timeout")) = SearchResult.exited 1
    ∧ getMultipleDateOptions demoQueries = JobOutcome.aborted 1
    ∧ ∀ rs, getMultipleDateOptions demoQueries ≠ JobOutcome.done rs := by
  refine ⟨rfl, rfl, ?_⟩
  intro rs h
  rw [show getMultipleDateOptions demoQueries = JobOutcome.aborted 1 from rfl] at h
  exact JobOutcome.noConfusion h

/-- A fetch that fails on every attempt. -/
def alwaysFailFetch : ℕ → FetchOutcome := fun _ => FetchOutcome.err ("page load timeout")

/-- A fetch that fails on the first attempt and succeeds on every later one. -/
def failThenOkFetch : ℕ → FetchOutcome := fun n =>
  if n = 0 then FetchOutcome.err ("page load timeout") else FetchOutcome.ok [demoFlightA]

/-- Counterexample for C8: on a fetch whose first attempt fails, the worker
neither retries nor records zero results — it propagates SystemExit after the
single attempt — although the (uncalled) backoff helper applied to the same
fetch would have recovered on attempt two. -/
theorem c8_counterexample_worker_single_attempt :
    searchSingleDate ("2025-02-01") (failThenOkFetch 0) = WorkerOutcome.systemExit 1
    ∧ (∀ fl, searchSingleDate ("2025-02-01") (failThenOkFetch 0)
        ≠ WorkerOutcome.completed ("2025-02-01") fl)
    ∧ retryWithBackoff failThenOkFetch 3 2 = (some [demoFlightA], 2, [2]) := by
  refine ⟨rfl, ?_, rfl⟩
  intro fl h
  rw [show searchSingleDate ("2025-02-01") (failThenOkFetch 0)
      = WorkerOutcome.systemExit 1 from rfl] at h
  exact WorkerOutcome.noConfusion h

/-- C8 (amended): retry_with_backoff itself implements the claimed policy —
with the default max_retries = 3 and initial_delay = 2, a persistently
failing fetch is attempted exactly 3 times with delays 2 then 4 before None —
but it has no caller: the worker makes one attempt and exits on failure. -/
theorem c8_backoff_policy_unwired :
    retryWithBackoff alwaysFailFetch 3 2 = (none, 3, [2, 4])
    ∧ searchSingleDate ("2025-02-01") (FetchOutcome.err ("boom"))
      = WorkerOutcome.systemExit 1 :=
  ⟨rfl, rfl⟩

theorem length_sortedInsert (le : α → α → Bool) (x : α) :
    ∀ l : List α, (sortedInsert le x l).length = l.length + 1 := by
  intro l
  induction l with
  | nil => rfl
  | cons y ys ih =>
    simp only [sortedInsert]
    split
    · simp [ih]
    · simp

theorem length_foldl_sortedInsert (le : α → α → Bool) :
    ∀ (l acc : List α),
      (l.foldl (fun acc x => sortedInsert le x acc) acc).length = acc.length + l.length := by
  intro l
  induction l with
  | nil => intro acc; simp
  | cons x xs ih =>
    intro acc
    rw [List.foldl_cons, ih, length_sortedInsert]
    simp only [List.length_cons]
    omega

theorem length_sortBy (le : α → α → Bool) (l : List α) : (sortBy le l).length = l.length := by
  unfold sortBy
  rw [length_foldl_sortedInsert]
  simp

theorem length_sortRows (sb : String) (h : Bool) (rows : List (Flight × Option ℚ)) :
    (sortRows sb h rows).length = rows.length := by
  unfold sortRows
  split_ifs <;> simp [length_sortBy]

theorem length_withValueScores (flights : List Flight) :
    (withValueScores flights).length = flights.length := by
  unfold withValueScores
  split
  · simp
  · dsimp only
    split <;> simp

theorem length_rankPipeline_le (flights : List Flight) (sb : String) (thr : ℚ) :
    (rankPipeline flights sb thr).length ≤ flights.length := by
  unfold rankPipeline
  by_cases h0 : flights = []
  · simp [h0]
  · rw [if_neg h0]
    dsimp only
    split
    all_goals
      split
      · simp
      · rw [length_sortRows]
        first
          | exact le_trans (List.length_filter_le _ _) (le_of_eq (length_withValueScores flights))
          | exact le_of_eq (length_withValueScores flights)

/-- The two-flight batch of the C7 counterexample. -/
def demoBatch : List Flight := [demoFlightA, demoFlightB]

/-- Counterexample for C7: with the default discount threshold 35 and
limit = -1, the two-flight batch yields one record, not an empty result —
DataFrame.head(-1) keeps all rows but the last one. -/
theorem c7_counterexample_negative_limit_not_empty :
    findBestDeals demoBatch ("price") (-1) 35 = [demoFlightA]
    ∧ findBestDeals demoBatch ("price") (-1) 35 ≠ [] := by
  refine ⟨by decide, ?_⟩
  intro h
  rw [show findBestDeals demoBatch ("price") (-1) 35 = [demoFlightA] by decide] at h
  exact List.noConfusion h

/-- C7 (amended): ranking truncates to at most limit records for limit ≥ 0,
a limit of 0 yields an empty result, and a negative limit -(k+1) returns all
ranked rows except the last k+1 (pandas head semantics) — hence at most
flights.length - (k+1) records, but not necessarily none. -/
theorem c7_limit_truncation (flights : List Flight) (sb : String) (thr : ℚ)
    (n : ℤ) (k : ℕ) :
    (findBestDeals flights sb n thr).length
        ≤ (if 0 ≤ n then n.toNat else flights.length - n.natAbs)
    ∧ findBestDeals flights sb 0 thr = []
    ∧ findBestDeals flights sb (-((k : ℤ) + 1)) thr
      = ((rankPipeline flights sb thr).take
          ((rankPipeline flights sb thr).length - (k + 1))).map (fun r => r.1) := by
  refine ⟨?_, ?_, ?_⟩
  · unfold findBestDeals pdHead
    split
    · simp only [List.length_map, List.length_take]
      omega
    · have hlen := length_rankPipeline_le flights sb thr
      simp only [List.length_map, List.length_take]
      omega
  · unfold findBestDeals pdHead
    simp
  · unfold findBestDeals pdHead
    have hneg : ¬ (0 : ℤ) ≤ -((k : ℤ) + 1) := by omega
    rw [if_neg hneg]
    have habs : (-((k : ℤ) + 1)).natAbs = k + 1 := by omega
    rw [habs]
